import Mathlib

/-!
Shallow embedding of two headers of a Swift-like compiler front end:
`include/swift/SIL/SILType.h` (the bit-packed SIL type handle) and
`include/swift/Parse/PersistentParserState.h` (cross-parse parser state).

The SIL type handle is a `llvm::PointerIntPair<TypeBase *, 2, unsigned>`:
one machine word whose low two bits hold the `SILValueCategory` and whose
remaining bits hold a canonicalized AST type pointer.  We model the word as
a `Nat`; the arena guarantees that every legal canonical type pointer is a
nonzero multiple of 4 and that the null pointer is 0, so masking the low
two bits recovers the pointer, exactly as `PointerIntPair::getPointer` does.

Queries that the handle forwards to the external AST node or to the
type-lowering collaborator (`TypeConverter`) are modelled as oracle
functions packaged in `ASTOracle`, or passed as explicit function
parameters: the header only calls them, it does not define them.
-/

namespace SwiftModel

/-- The value category of a SIL type: an object value or an address.
Mirrors `enum class SILValueCategory : uint8_t { Object, Address }`. -/
inductive SILValueCategory where
  | Object
  | Address
deriving DecidableEq, Repr

/-- The integer stored for a category in the low bits of the handle,
`unsigned(category)` in the constructor. -/
def SILValueCategory.toNat : SILValueCategory → Nat
  | .Object => 0
  | .Address => 1

/-- The C++ cast `SILValueCategory(bits)` applied to the extracted low
bits; handles reachable through the constructors only ever store 0 or 1. -/
def SILValueCategory.fromBits (n : Nat) : SILValueCategory :=
  if n = 1 then .Address else .Object

/-- A `CanType`: an externally interned canonical AST type pointer.
The null pointer (0) is the sentinel "no type"; every legal type pointer
is a nonzero multiple of 4 (the arena's alignment guarantee). -/
structure CanType where
  ptr : Nat
deriving DecidableEq, Repr

/-- `t % 4 = 0`: the alignment guarantee the tagged-pointer encoding relies
on.  The null pointer (0) satisfies it as well. -/
def CanType.aligned (t : CanType) : Prop := t.ptr % 4 = 0

instance (t : CanType) : Decidable t.aligned := by
  unfold CanType.aligned; infer_instance

/-- `SILType`: the pointer-sized handle.  `value` is the raw
`PointerIntPair` word; the default-constructed handle is the zero word. -/
structure SILType where
  value : Nat := 0
deriving DecidableEq, Repr

namespace SILType

/-- `value.getPointer()`: the word with its two low tag bits masked off. -/
def getPointer (h : SILType) : Nat := h.value - h.value % 4

/-- `value.getInt()`: the two low tag bits. -/
def getInt (h : SILType) : Nat := h.value % 4

/-- The private constructor `SILType(CanType ty, SILValueCategory category)`:
stores `(ty.getPointer(), unsigned(category))` into the pointer-int pair,
i.e. the masked pointer or-ed with the category bits.  (The assertion that a
non-null `ty` is a legal SIL type does not change the stored word.)
`getPrimitiveType` forwards to it unchanged. -/
def getPrimitiveType (t : CanType) (c : SILValueCategory) : SILType :=
  ⟨t.ptr - t.ptr % 4 + c.toNat⟩

/-- `getPrimitiveObjectType(T)`: `SILType(T, SILValueCategory::Object)`. -/
def getPrimitiveObjectType (t : CanType) : SILType :=
  getPrimitiveType t .Object

/-- `getPrimitiveAddressType(T)`: `SILType(T, SILValueCategory::Address)`. -/
def getPrimitiveAddressType (t : CanType) : SILType :=
  getPrimitiveType t .Address

/-- `isNull()`: `value.getPointer() == nullptr`. -/
def isNull (h : SILType) : Bool := h.getPointer = 0

/-- `explicit operator bool()`: `bool(value.getPointer())`. -/
def toBool (h : SILType) : Bool := h.getPointer ≠ 0

/-- `getCategory()`: `SILValueCategory(value.getInt())`. -/
def getCategory (h : SILType) : SILValueCategory :=
  SILValueCategory.fromBits h.getInt

/-- `getASTType()`: `CanType(value.getPointer())`. -/
def getASTType (h : SILType) : CanType := ⟨h.getPointer⟩

/-- `getCategoryType(Category)`: `SILType(getASTType(), Category)`. -/
def getCategoryType (h : SILType) (c : SILValueCategory) : SILType :=
  getPrimitiveType h.getASTType c

/-- `copyCategory(Ty)`: `getCategoryType(Ty.getCategory())`. -/
def copyCategory (h : SILType) (ty : SILType) : SILType :=
  h.getCategoryType ty.getCategory

/-- `getAddressType()`: `SILType(getASTType(), SILValueCategory::Address)`. -/
def getAddressType (h : SILType) : SILType :=
  getPrimitiveType h.getASTType .Address

/-- `getObjectType()`: `SILType(getASTType(), SILValueCategory::Object)`. -/
def getObjectType (h : SILType) : SILType :=
  getPrimitiveType h.getASTType .Object

/-- `getOpaqueValue()`: the raw encoded word. -/
def getOpaqueValue (h : SILType) : Nat := h.value

/-- `operator==`: compares the full encoded words,
`value.getOpaqueValue() == rhs.value.getOpaqueValue()`. -/
def eqOp (a b : SILType) : Bool := a.getOpaqueValue = b.getOpaqueValue

/-- `isAddress()`: `getCategory() == SILValueCategory::Address`. -/
def isAddress (h : SILType) : Bool := h.getCategory = .Address

/-- `isObject()`: `getCategory() == SILValueCategory::Object`. -/
def isObject (h : SILType) : Bool := h.getCategory = .Object

/-- Well-formedness of a raw word: the tag bits encode a real category
(0 or 1), as every handle built by the constructors does. -/
def WF (h : SILType) : Prop := h.value % 4 < 2

instance (h : SILType) : Decidable h.WF := by
  unfold WF; infer_instance

end SILType

/-! Helper arithmetic about the masked word. -/

theorem SILType.getPointer_getPrimitiveType (t : CanType) (c : SILValueCategory) :
    (SILType.getPrimitiveType t c).getPointer = t.ptr - t.ptr % 4 := by
  unfold SILType.getPrimitiveType SILType.getPointer
  cases c <;> simp [SILValueCategory.toNat] <;> omega

theorem SILType.getInt_getPrimitiveType (t : CanType) (c : SILValueCategory) :
    (SILType.getPrimitiveType t c).getInt = c.toNat := by
  unfold SILType.getPrimitiveType SILType.getInt
  cases c <;> simp [SILValueCategory.toNat] <;> omega

theorem SILType.getCategory_getPrimitiveType (t : CanType) (c : SILValueCategory) :
    (SILType.getPrimitiveType t c).getCategory = c := by
  unfold SILType.getCategory SILValueCategory.fromBits
  rw [SILType.getInt_getPrimitiveType]
  cases c <;> simp [SILValueCategory.toNat]

theorem SILType.getASTType_getPrimitiveType (t : CanType) (c : SILValueCategory)
    (ha : t.aligned) : (SILType.getPrimitiveType t c).getASTType = t := by
  unfold SILType.getASTType
  rw [SILType.getPointer_getPrimitiveType]
  unfold CanType.aligned at ha
  cases t
  simp at ha ⊢
  omega

theorem SILType.getASTType_aligned (h : SILType) : h.getASTType.aligned := by
  unfold SILType.getASTType CanType.aligned SILType.getPointer
  simp
  omega

/-!
## AST-side and lowering-side collaborators

The representation of a SIL function type,
`SILFunctionType::Representation`. -/

inductive SILFunctionRepr where
  | thick
  | block
  | thin
  | cFunctionPointer
  | method
  | objCMethod
  | witnessMethod
  | closure
deriving DecidableEq, Repr

/-- The oracle for the queries the handle forwards to the canonical AST
type node (or, for `isClassOrBoundGenericClass`-style classification, to
the static helper's argument).  Each field is keyed by the type pointer.
The header only calls these; their definitions live in the AST, outside
these sources. -/
structure ASTOracle where
  isVoid : Nat → Bool := fun _ => false
  isAnyObject : Nat → Bool := fun _ => false
  hasReferenceSemantics : Nat → Bool := fun _ => false
  isAnyClassReferenceType : Nat → Bool := fun _ => false
  hasRetainablePointerRepresentation : Nat → Bool := fun _ => false
  isExistentialType : Nat → Bool := fun _ => false
  isAnyExistentialType : Nat → Bool := fun _ => false
  isClassExistentialType : Nat → Bool := fun _ => false
  isOpenedExistential : Nat → Bool := fun _ => false
  hasOpenedExistential : Nat → Bool := fun _ => false
  hasTypeParameter : Nat → Bool := fun _ => false
  hasArchetype : Nat → Bool := fun _ => false
  isBridgeableObjectType : Nat → Bool := fun _ => false
  /-- Whether the type is a class, a bound generic class, or a metatype of
  one: the AST-side content of the static `isClassOrClassMetatype(Type)`. -/
  isClassOrClassMetatypeType : Nat → Bool := fun _ => false
  /-- `getASTType().getOptionalObjectType()`: if the type is `Optional<T>`,
  the pointer of the lowered `T`; otherwise none. -/
  optionalObjectPtr : Nat → Option Nat := fun _ => none
  /-- `dyn_cast<SILFunctionType>` plus `getRepresentation()`: the
  representation if the type is a SIL function type, otherwise none. -/
  fnRepr : Nat → Option SILFunctionRepr := fun _ => none

namespace SILType

/-- `isVoid()`: `value.getPointer()->isVoid()`. -/
def isVoid (o : ASTOracle) (h : SILType) : Bool := o.isVoid h.getPointer

/-- `isAnyObject()`: `getASTType()->isAnyObject()`. -/
def isAnyObject (o : ASTOracle) (h : SILType) : Bool :=
  o.isAnyObject h.getASTType.ptr

/-- `hasReferenceSemantics()`: `getASTType().hasReferenceSemantics()`. -/
def hasReferenceSemantics (o : ASTOracle) (h : SILType) : Bool :=
  o.hasReferenceSemantics h.getASTType.ptr

/-- `isAnyClassReferenceType()`: `getASTType().isAnyClassReferenceType()`. -/
def isAnyClassReferenceType (o : ASTOracle) (h : SILType) : Bool :=
  o.isAnyClassReferenceType h.getASTType.ptr

/-- `hasRetainablePointerRepresentation()`: delegates to the AST type. -/
def hasRetainablePointerRepresentation (o : ASTOracle) (h : SILType) : Bool :=
  o.hasRetainablePointerRepresentation h.getASTType.ptr

/-- `isExistentialType()`: `getASTType().isExistentialType()`. -/
def isExistentialType (o : ASTOracle) (h : SILType) : Bool :=
  o.isExistentialType h.getASTType.ptr

/-- `isAnyExistentialType()`: `getASTType().isAnyExistentialType()`. -/
def isAnyExistentialType (o : ASTOracle) (h : SILType) : Bool :=
  o.isAnyExistentialType h.getASTType.ptr

/-- `isClassExistentialType()`: `getASTType()->isClassExistentialType()`. -/
def isClassExistentialType (o : ASTOracle) (h : SILType) : Bool :=
  o.isClassExistentialType h.getASTType.ptr

/-- `isOpenedExistential()`: `getASTType()->isOpenedExistential()`. -/
def isOpenedExistential (o : ASTOracle) (h : SILType) : Bool :=
  o.isOpenedExistential h.getASTType.ptr

/-- `hasOpenedExistential()`: `getASTType()->hasOpenedExistential()`. -/
def hasOpenedExistential (o : ASTOracle) (h : SILType) : Bool :=
  o.hasOpenedExistential h.getASTType.ptr

/-- `hasTypeParameter()`: `getASTType()->hasTypeParameter()`. -/
def hasTypeParameter (o : ASTOracle) (h : SILType) : Bool :=
  o.hasTypeParameter h.getASTType.ptr

/-- `hasArchetype()`: `getASTType()->hasArchetype()`. -/
def hasArchetype (o : ASTOracle) (h : SILType) : Bool :=
  o.hasArchetype h.getASTType.ptr

/-- `isBridgeableObjectType()`: `getASTType()->isBridgeableObjectType()`. -/
def isBridgeableObjectType (o : ASTOracle) (h : SILType) : Bool :=
  o.isBridgeableObjectType h.getASTType.ptr

/-- The static `isClassOrClassMetatype(Type t)` helper, applied to a type
pointer: classification of the AST node, delegated to the oracle. -/
def isClassOrClassMetatypeStatic (o : ASTOracle) (p : Nat) : Bool :=
  o.isClassOrClassMetatypeType p

/-- The member `isClassOrClassMetatype()`:
`isObject() && isClassOrClassMetatype(getASTType())`. -/
def isClassOrClassMetatype (o : ASTOracle) (h : SILType) : Bool :=
  h.isObject && isClassOrClassMetatypeStatic o h.getASTType.ptr

/-- Modelled from the spec: the body of `getOptionalObjectType` is in
`SILType.cpp`, which is not among the sources.  The header documents it as
"Returns the lowered type for T if this type is Optional<T>; otherwise,
return the null type"; the result keeps the base handle's category. -/
def getOptionalObjectType (o : ASTOracle) (h : SILType) : SILType :=
  match o.optionalObjectPtr h.getASTType.ptr with
  | some p => getPrimitiveType ⟨p⟩ h.getCategory
  | none => {}

/-- `isBlockPointerCompatible()`, translated from the header body:
look through one level of optionality (`if (auto optPayload =
ty.getOptionalObjectType()) ty = optPayload;`), then test whether the
referenced type is a SIL function type with `Representation::Block`. -/
def isBlockPointerCompatible (o : ASTOracle) (h : SILType) : Bool :=
  let ty := if (h.getOptionalObjectType o).toBool then h.getOptionalObjectType o else h
  match o.fnRepr ty.getASTType.ptr with
  | none => false
  | some rep => rep = SILFunctionRepr.block

end SILType

/-! ## Lowering-sensitive queries (TypeConverter / SILFunction oracles) -/

/-- An abstract `SILFunction`: only its identity matters to the handle. -/
structure SILFunction where
  id : Nat
deriving DecidableEq

/-- An abstract `Lowering::TypeConverter` collaborator. -/
structure TypeConverter where
  id : Nat
deriving DecidableEq

/-- An abstract `CanGenericSignature`. -/
structure CanGenericSignature where
  id : Nat
deriving DecidableEq

/-- `ResilienceExpansion`: how much cross-module layout detail is visible. -/
inductive ResilienceExpansion where
  | Minimal
  | Maximal
deriving DecidableEq, Repr

/-- Modelled from the spec: the member `isAddressOnly(const SILFunction &F)`
is only declared in the header; its body lives in `SILType.cpp`.  It is the
external address-only query for this type in `F`'s resilience expansion,
kept abstract as an oracle `ao`. -/
def SILType.isAddressOnlyFn (ao : SILFunction → SILType → Bool)
    (F : SILFunction) (h : SILType) : Bool :=
  ao F h

/-- `isLoadable(const SILFunction &F)`, translated from the header body:
`return !isAddressOnly(F);`. -/
def SILType.isLoadable (ao : SILFunction → SILType → Bool)
    (F : SILFunction) (h : SILType) : Bool :=
  !(SILType.isAddressOnlyFn ao F h)

/-- `isFormallyReturnedIndirectly(type, tc, sig)`, translated from the
header body: `return isAddressOnly(type, tc, sig,
ResilienceExpansion::Minimal);`.  The static four-argument `isAddressOnly`
is only declared in the header, so it is the oracle parameter `ao`. -/
def SILType.isFormallyReturnedIndirectly
    (ao : CanType → TypeConverter → CanGenericSignature → ResilienceExpansion → Bool)
    (t : CanType) (tc : TypeConverter) (sig : CanGenericSignature) : Bool :=
  ao t tc sig .Minimal

/-- `isFormallyPassedIndirectly(type, tc, sig)`, translated from the header
body: `return isAddressOnly(type, tc, sig, ResilienceExpansion::Minimal);`. -/
def SILType.isFormallyPassedIndirectly
    (ao : CanType → TypeConverter → CanGenericSignature → ResilienceExpansion → Bool)
    (t : CanType) (tc : TypeConverter) (sig : CanGenericSignature) : Bool :=
  ao t tc sig .Minimal

/-!
## An interned arena of canonical type shapes

To settle structural claims such as block-pointer compatibility we need a
concrete instance of the collaborators: a family of canonical type nodes
(SIL function types with a representation, `Optional<T>` wrappers, and
everything else as opaque tags), interned injectively into aligned
pointers, together with the `ASTOracle` this arena induces. -/

inductive CTy where
  | fnTy (rep : SILFunctionRepr)
  | optionalTy (payload : CTy)
  | other (tag : Nat)
deriving DecidableEq, Repr

def SILFunctionRepr.toNat : SILFunctionRepr → Nat
  | .thick => 0
  | .block => 1
  | .thin => 2
  | .cFunctionPointer => 3
  | .method => 4
  | .objCMethod => 5
  | .witnessMethod => 6
  | .closure => 7

def SILFunctionRepr.fromNat : Nat → SILFunctionRepr
  | 0 => .thick
  | 1 => .block
  | 2 => .thin
  | 3 => .cFunctionPointer
  | 4 => .method
  | 5 => .objCMethod
  | 6 => .witnessMethod
  | _ => .closure

/-- An injective code for type shapes (mod-3 tagging of the variants). -/
def CTy.code : CTy → Nat
  | .fnTy rep => 3 * rep.toNat
  | .optionalTy payload => 3 * payload.code + 1
  | .other tag => 3 * tag + 2

/-- Partial inverse of `CTy.code`. -/
def decodeCTy (n : Nat) : Option CTy :=
  if n % 3 = 0 then
    if n / 3 < 8 then some (.fnTy (SILFunctionRepr.fromNat (n / 3))) else none
  else if h1 : n % 3 = 1 then
    (decodeCTy ((n - 1) / 3)).map .optionalTy
  else
    some (.other ((n - 2) / 3))
termination_by n
decreasing_by omega

/-- The interned pointer of a type shape: a nonzero multiple of 4, as the
arena's alignment contract requires. -/
def internPtr (t : CTy) : Nat := 4 * (t.code + 1)

theorem SILFunctionRepr.fromNat_toNat (r : SILFunctionRepr) :
    SILFunctionRepr.fromNat r.toNat = r := by
  cases r <;> rfl

theorem decodeCTy_code (t : CTy) : decodeCTy t.code = some t := by
  induction t with
  | fnTy rep =>
      have hlt : rep.toNat < 8 := by cases rep <;> simp [SILFunctionRepr.toNat]
      unfold decodeCTy CTy.code
      have h0 : 3 * rep.toNat % 3 = 0 := by omega
      have hd : 3 * rep.toNat / 3 = rep.toNat := by omega
      simp [h0, hd, hlt, SILFunctionRepr.fromNat_toNat]
  | optionalTy payload ih =>
      unfold decodeCTy CTy.code
      have h0 : ¬ (3 * payload.code + 1) % 3 = 0 := by omega
      have h1 : (3 * payload.code + 1) % 3 = 1 := by omega
      have hd : (3 * payload.code + 1 - 1) / 3 = payload.code := by omega
      simp [h0, h1, hd]
      exact ih
  | other tag =>
      unfold decodeCTy CTy.code
      have h0 : ¬ (3 * tag + 2) % 3 = 0 := by omega
      have h1 : ¬ (3 * tag + 2) % 3 = 1 := by omega
      have hd : (3 * tag + 2 - 2) / 3 = tag := by omega
      simp [h0, h1, hd]

/-- Pointer-level decoding: the null pointer and unaligned words denote no
type; an aligned nonzero word decodes through `decodeCTy`. -/
def decodePtr (p : Nat) : Option CTy :=
  if p % 4 = 0 ∧ p ≠ 0 then decodeCTy (p / 4 - 1) else none

theorem internPtr_aligned (t : CTy) : internPtr t % 4 = 0 := by
  unfold internPtr; omega

theorem internPtr_ne_zero (t : CTy) : internPtr t ≠ 0 := by
  unfold internPtr; omega

theorem decodePtr_internPtr (t : CTy) : decodePtr (internPtr t) = some t := by
  unfold decodePtr
  have h4 : internPtr t % 4 = 0 := internPtr_aligned t
  have hne : internPtr t ≠ 0 := internPtr_ne_zero t
  have hd : internPtr t / 4 - 1 = t.code := by unfold internPtr; omega
  simp [h4, hne, hd, decodeCTy_code]

/-- The `ASTOracle` induced by the interned arena: `Optional<T>` nodes have
an optional object type, SIL function nodes have a representation. -/
def internedOracle : ASTOracle where
  optionalObjectPtr := fun p =>
    match decodePtr p with
    | some (.optionalTy payload) => some (internPtr payload)
    | _ => none
  fnRepr := fun p =>
    match decodePtr p with
    | some (.fnTy rep) => some rep
    | _ => none

/-- An oracle on which every type node counts as a class (or a metatype of
one); used to exercise the category-sensitivity of the
`isClassOrClassMetatype` member. -/
def allClassOracle : ASTOracle where
  isClassOrClassMetatypeType := fun _ => true

/-!
## Persistent parser state

`include/swift/Parse/PersistentParserState.h`.  C++ methods that mutate
`this` become functions from the state to (result ×) new state. -/

/-- A source location.  `SourceLoc` lives in `Basic/SourceLoc.h`, outside
these sources; all the header needs is an identity and a validity test,
with the default-constructed location invalid. -/
structure SourceLoc where
  isValid : Bool := false
  pos : Nat := 0
deriving DecidableEq, Repr

/-- `PersistentParserState::ParserPos`: a token location and the previous
token's location.  `isValid()` is `Loc.isValid()`. -/
structure ParserPos where
  loc : SourceLoc
  prevLoc : SourceLoc
deriving DecidableEq, Repr

def ParserPos.isValid (p : ParserPos) : Bool := p.loc.isValid

/-- Modelled from the spec: `ParserPosition` is defined in
`Parse/ParserPosition.h`, which is not among the sources.  It is a marked
lexer/parser resume position whose default-constructed value is the
invalid sentinel. -/
structure ParserPosition where
  isValid : Bool := false
  tag : Nat := 0
deriving DecidableEq, Repr

/-- Modelled from the spec: `SavedScope` (`Parse/Scope.h` is not among the
sources) is an opaque movable snapshot of the lexical scope chain. -/
structure SavedScope where
  tag : Nat := 0
deriving DecidableEq, Repr

/-- `PersistentParserState::DelayedDeclKind`. -/
inductive DelayedDeclKind where
  | TopLevelCodeDecl
  | Decl
  | FunctionBody
deriving DecidableEq, Repr

/-- `PersistentParserState::DelayedDeclState`: kind, flags, parent decl
context (a non-owning pointer, modelled by its identity), body start
position, body end location, and the captured scope. -/
structure DelayedDeclState where
  kind : DelayedDeclKind
  flags : Nat
  parentContext : Nat
  bodyPos : ParserPos
  bodyEnd : SourceLoc
  scope : SavedScope
deriving DecidableEq, Repr

/-- `PersistentParserState::FunctionBodyState`: body start position and the
captured scope. -/
structure FunctionBodyState where
  bodyPos : ParserPos
  scope : SavedScope
deriving DecidableEq, Repr

/-- `PersistentParserState`: the cross-parse state.  Owned collaborator
state that the header treats as opaque (`ScopeInfo`, `TopLevelContext`) is
modelled by an identity; the pointer keys of the delayed-body map and the
delayed-list queue are identities of externally owned declarations. -/
structure PersistentParserState where
  inPoundLineEnvironment : Bool := false
  performConditionEvaluation : Bool := true
  scopeInfo : Nat := 0
  delayedFunctionBodies : List (Nat × FunctionBodyState) := []
  markedPos : ParserPosition := {}
  codeCompletionDelayedDeclState : Option DelayedDeclState := none
  delayedDeclLists : List Nat := []
  topLevelCode : Nat := 0
deriving DecidableEq, Repr

namespace PersistentParserState

/-- `hasDelayedDecl()`: `CodeCompletionDelayedDeclState.get() != nullptr`. -/
def hasDelayedDecl (s : PersistentParserState) : Bool :=
  s.codeCompletionDelayedDeclState.isSome

/-- `takeDelayedDeclState()`: `std::move(CodeCompletionDelayedDeclState)`;
moving out of a `unique_ptr` leaves it null, so the slot becomes empty. -/
def takeDelayedDeclState (s : PersistentParserState) :
    Option DelayedDeclState × PersistentParserState :=
  (s.codeCompletionDelayedDeclState, { s with codeCompletionDelayedDeclState := none })

/-- `markParserPosition(Pos, InPoundLineEnvironment)`: `MarkedPos = Pos;
this->InPoundLineEnvironment = InPoundLineEnvironment;`. -/
def markParserPosition (s : PersistentParserState) (pos : ParserPosition)
    (inPoundLineEnv : Bool) : PersistentParserState :=
  { s with markedPos := pos, inPoundLineEnvironment := inPoundLineEnv }

/-- `takeParserPosition()`: returns `MarkedPos` and resets it to the
default-constructed (invalid) `ParserPosition()`. -/
def takeParserPosition (s : PersistentParserState) :
    ParserPosition × PersistentParserState :=
  (s.markedPos, { s with markedPos := {} })

/-- Iterated `takeParserPosition`, discarding the returned positions. -/
def takeParserPositionIter : Nat → PersistentParserState → PersistentParserState
  | 0, s => s
  | n + 1, s => takeParserPositionIter n (takeParserPosition s).2

end PersistentParserState

/-!
## Derived facts about the handle, shared by several claims
-/

theorem SILType.eqOp_eq_true_iff (a b : SILType) : SILType.eqOp a b = true ↔ a = b := by
  obtain ⟨va⟩ := a
  obtain ⟨vb⟩ := b
  unfold SILType.eqOp SILType.getOpaqueValue
  simp

theorem SILType.getASTType_getCategoryType (h : SILType) (c : SILValueCategory) :
    (h.getCategoryType c).getASTType = h.getASTType :=
  SILType.getASTType_getPrimitiveType _ c (SILType.getASTType_aligned h)

theorem SILType.getPointer_getCategoryType (h : SILType) (c : SILValueCategory) :
    (h.getCategoryType c).getPointer = h.getPointer :=
  congrArg CanType.ptr (SILType.getASTType_getCategoryType h c)

theorem SILType.getCategory_getCategoryType (h : SILType) (c : SILValueCategory) :
    (h.getCategoryType c).getCategory = c :=
  SILType.getCategory_getPrimitiveType _ c

theorem SILType.getCategoryType_getCategoryType (h : SILType) (c c' : SILValueCategory) :
    (h.getCategoryType c).getCategoryType c' = h.getCategoryType c' := by
  show SILType.getPrimitiveType (h.getCategoryType c).getASTType c' = _
  rw [SILType.getASTType_getCategoryType]
  rfl

/-!
## The claims
-/

/-- C1: for every CanonicalType `t` for which the handle may be constructed
(null, or a legal lowered SIL type, hence a pointer the arena has placed at
a 4-byte-aligned address; the null pointer 0 is aligned as well) and every
category `c`, the handle `getPrimitiveType(t, c)` satisfies
`getCategory() == c` and `getASTType() == t`. -/
theorem c1_getPrimitiveType_category_astType (t : CanType) (c : SILValueCategory)
    (ha : t.aligned) :
    (SILType.getPrimitiveType t c).getCategory = c ∧
    (SILType.getPrimitiveType t c).getASTType = t :=
  ⟨SILType.getCategory_getPrimitiveType t c,
   SILType.getASTType_getPrimitiveType t c ha⟩

/-- Witness for C1 at the concrete aligned type pointer 8 and the Address
category. -/
theorem c1_witness :
    CanType.aligned ⟨8⟩ ∧
    ((SILType.getPrimitiveType ⟨8⟩ .Address).getCategory = .Address ∧
     (SILType.getPrimitiveType ⟨8⟩ .Address).getASTType = ⟨8⟩) :=
  ⟨by decide, c1_getPrimitiveType_category_astType ⟨8⟩ .Address (by decide)⟩

/-- C2: for every pair of handles whose tag bits encode a real category
(as every handle built by the constructors does), `operator==` — which
compares the full encoded pointer-sized word — holds iff both the
referenced CanonicalType and the category agree. -/
theorem c2_equality_iff_astType_and_category (h1 h2 : SILType)
    (w1 : h1.WF) (w2 : h2.WF) :
    SILType.eqOp h1 h2 = true ↔
      (h1.getASTType = h2.getASTType ∧ h1.getCategory = h2.getCategory) := by
  obtain ⟨v1⟩ := h1
  obtain ⟨v2⟩ := h2
  unfold SILType.WF at w1 w2
  unfold SILType.eqOp SILType.getOpaqueValue SILType.getASTType SILType.getCategory
    SILType.getPointer SILType.getInt SILValueCategory.fromBits
  dsimp only at w1 w2 ⊢
  simp only [decide_eq_true_eq, CanType.mk.injEq]
  constructor
  · intro hv
    simp at hv
    subst hv
    exact ⟨rfl, rfl⟩
  · rintro ⟨hp, hc⟩
    by_cases hv1 : v1 % 4 = 1 <;> by_cases hv2 : v2 % 4 = 1 <;>
      simp [hv1, hv2] at hc ⊢ <;> omega

/-- Witness for C2 at the concrete words 5 (pointer 4, Address) and 4
(pointer 4, Object): the handles compare unequal and indeed their
categories differ. -/
theorem c2_witness :
    SILType.WF ⟨5⟩ ∧ SILType.WF ⟨4⟩ ∧
    (SILType.eqOp ⟨5⟩ ⟨4⟩ = true ↔
      ((⟨5⟩ : SILType).getASTType = (⟨4⟩ : SILType).getASTType ∧
       (⟨5⟩ : SILType).getCategory = (⟨4⟩ : SILType).getCategory)) :=
  ⟨by decide, by decide,
   c2_equality_iff_astType_and_category ⟨5⟩ ⟨4⟩ (by decide) (by decide)⟩

/-- C3 counterexample: the constructor stores the category bits even when
the type pointer is null, and `operator==` compares the full word, so
`getPrimitiveType(null, Address)` is NOT equal to the default-constructed
`SILType()`, contrary to the claim that the three null handles are all
equal. -/
theorem c3_counterexample :
    SILType.eqOp (SILType.getPrimitiveType ⟨0⟩ .Address) {} = false := by
  decide

/-- C3 amended: all three handles built over the null CanonicalType satisfy
`isNull()` (the category bits are irrelevant to nullness), and
`getPrimitiveType(null, Object)` equals the default-constructed handle; but
the category bits remain in the encoded word, so
`getPrimitiveType(null, Address)` differs under `operator==` from both of
the others and still reports the Address category. -/
theorem c3_null_handles :
    (SILType.getPrimitiveType ⟨0⟩ .Object).isNull = true ∧
    (SILType.getPrimitiveType ⟨0⟩ .Address).isNull = true ∧
    ({} : SILType).isNull = true ∧
    SILType.eqOp (SILType.getPrimitiveType ⟨0⟩ .Object) {} = true ∧
    SILType.eqOp (SILType.getPrimitiveType ⟨0⟩ .Address) {} = false ∧
    SILType.eqOp (SILType.getPrimitiveType ⟨0⟩ .Address)
      (SILType.getPrimitiveType ⟨0⟩ .Object) = false ∧
    (SILType.getPrimitiveType ⟨0⟩ .Address).getCategory = .Address := by
  decide

/-- C4: `getCategoryType` is right-absorbing
(`h.getCategoryType(c).getCategoryType(c') == h.getCategoryType(c')`),
the address/object round trip re-creates the address variant, and
`getCategoryType`, `copyCategory`, `getAddressType` and `getObjectType`
all leave `getASTType()` unchanged. -/
theorem c4_category_ops_algebra (h ty : SILType) (c c' : SILValueCategory) :
    SILType.eqOp ((h.getCategoryType c).getCategoryType c')
      (h.getCategoryType c') = true ∧
    SILType.eqOp h.getAddressType.getObjectType.getAddressType
      h.getAddressType = true ∧
    (h.getCategoryType c).getASTType = h.getASTType ∧
    (h.copyCategory ty).getASTType = h.getASTType ∧
    h.getAddressType.getASTType = h.getASTType ∧
    h.getObjectType.getASTType = h.getASTType := by
  have haddr : h.getAddressType = h.getCategoryType .Address := rfl
  have hobj : ∀ g : SILType, g.getObjectType = g.getCategoryType .Object :=
    fun _ => rfl
  refine ⟨?_, ?_, SILType.getASTType_getCategoryType h c, ?_, ?_, ?_⟩
  · rw [SILType.eqOp_eq_true_iff]
    exact SILType.getCategoryType_getCategoryType h c c'
  · rw [SILType.eqOp_eq_true_iff, haddr, hobj, SILType.getCategoryType_getCategoryType,
      show (h.getCategoryType .Object).getAddressType
          = (h.getCategoryType .Object).getCategoryType .Address from rfl,
      SILType.getCategoryType_getCategoryType]
  · exact SILType.getASTType_getCategoryType h _
  · rw [haddr]
    exact SILType.getASTType_getCategoryType h _
  · rw [hobj]
    exact SILType.getASTType_getCategoryType h _

/-- C5 counterexample: the member `isClassOrClassMetatype()` does not
delegate to the CanonicalType only — it also requires the object category.
With an oracle on which the AST node at pointer 4 is a class, the object
handle and its Address variant disagree. -/
theorem c5_counterexample :
    SILType.isClassOrClassMetatype allClassOracle
        (SILType.getPrimitiveType ⟨4⟩ .Object) ≠
      SILType.isClassOrClassMetatype allClassOracle
        ((SILType.getPrimitiveType ⟨4⟩ .Object).getCategoryType .Address) := by
  decide

/-- C5 amended: the thirteen predicates `isVoid`, `isAnyObject`,
`hasReferenceSemantics`, `isAnyClassReferenceType`,
`hasRetainablePointerRepresentation`, `isExistentialType`,
`isAnyExistentialType`, `isClassExistentialType`, `isOpenedExistential`,
`hasOpenedExistential`, `hasTypeParameter`, `hasArchetype` and
`isBridgeableObjectType` delegate to the CanonicalType only and return the
same value on `h` and on `h.getCategoryType(c)`; `isClassOrClassMetatype`,
however, conjoins `isObject()` with the AST classification, so it is false
on every Address variant and agrees with the AST classification only on
the Object variant. -/
theorem c5_predicates_category_invariance (o : ASTOracle) (h : SILType)
    (c : SILValueCategory) :
    SILType.isVoid o (h.getCategoryType c) = SILType.isVoid o h ∧
    SILType.isAnyObject o (h.getCategoryType c) = SILType.isAnyObject o h ∧
    SILType.hasReferenceSemantics o (h.getCategoryType c)
      = SILType.hasReferenceSemantics o h ∧
    SILType.isAnyClassReferenceType o (h.getCategoryType c)
      = SILType.isAnyClassReferenceType o h ∧
    SILType.hasRetainablePointerRepresentation o (h.getCategoryType c)
      = SILType.hasRetainablePointerRepresentation o h ∧
    SILType.isExistentialType o (h.getCategoryType c)
      = SILType.isExistentialType o h ∧
    SILType.isAnyExistentialType o (h.getCategoryType c)
      = SILType.isAnyExistentialType o h ∧
    SILType.isClassExistentialType o (h.getCategoryType c)
      = SILType.isClassExistentialType o h ∧
    SILType.isOpenedExistential o (h.getCategoryType c)
      = SILType.isOpenedExistential o h ∧
    SILType.hasOpenedExistential o (h.getCategoryType c)
      = SILType.hasOpenedExistential o h ∧
    SILType.hasTypeParameter o (h.getCategoryType c)
      = SILType.hasTypeParameter o h ∧
    SILType.hasArchetype o (h.getCategoryType c) = SILType.hasArchetype o h ∧
    SILType.isBridgeableObjectType o (h.getCategoryType c)
      = SILType.isBridgeableObjectType o h ∧
    SILType.isClassOrClassMetatype o (h.getCategoryType .Address) = false ∧
    SILType.isClassOrClassMetatype o (h.getCategoryType .Object)
      = SILType.isClassOrClassMetatypeStatic o h.getASTType.ptr := by
  refine ⟨?_, ?_, ?_, ?_, ?_, ?_, ?_, ?_, ?_, ?_, ?_, ?_, ?_, ?_, ?_⟩ <;>
    simp [SILType.isVoid, SILType.isAnyObject, SILType.hasReferenceSemantics,
      SILType.isAnyClassReferenceType, SILType.hasRetainablePointerRepresentation,
      SILType.isExistentialType, SILType.isAnyExistentialType,
      SILType.isClassExistentialType, SILType.isOpenedExistential,
      SILType.hasOpenedExistential, SILType.hasTypeParameter,
      SILType.hasArchetype, SILType.isBridgeableObjectType,
      SILType.isClassOrClassMetatype, SILType.isClassOrClassMetatypeStatic,
      SILType.isObject, SILType.getPointer_getCategoryType,
      SILType.getASTType_getCategoryType, SILType.getCategory_getCategoryType]

/-- C6: `isBlockPointerCompatible()` over the interned arena is true
exactly on a SIL function type with Block representation and on
`Optional` of such a function type; it looks through at most one optional
wrapper, so `Optional<Optional<Block>>` yields false, and any non-Block
representation yields false. -/
theorem c6_isBlockPointerCompatible_iff (t : CTy) (c : SILValueCategory) :
    SILType.isBlockPointerCompatible internedOracle
        (SILType.getPrimitiveType ⟨internPtr t⟩ c) = true ↔
      (t = CTy.fnTy SILFunctionRepr.block ∨
       t = CTy.optionalTy (CTy.fnTy SILFunctionRepr.block)) := by
  have hast : ∀ (u : CTy) (c' : SILValueCategory),
      (SILType.getPrimitiveType ⟨internPtr u⟩ c').getASTType = ⟨internPtr u⟩ :=
    fun u c' => SILType.getASTType_getPrimitiveType _ c' (internPtr_aligned u)
  unfold SILType.isBlockPointerCompatible
  cases t with
  | fnTy rep =>
      have hopt : SILType.getOptionalObjectType internedOracle
          (SILType.getPrimitiveType ⟨internPtr (CTy.fnTy rep)⟩ c) = {} := by
        unfold SILType.getOptionalObjectType
        rw [hast]
        simp [internedOracle, decodePtr_internPtr]
      rw [hopt]
      simp only [SILType.toBool, SILType.getPointer]
      norm_num
      rw [hast]
      simp [internedOracle, decodePtr_internPtr]
  | optionalTy payload =>
      have hopt : SILType.getOptionalObjectType internedOracle
          (SILType.getPrimitiveType ⟨internPtr (CTy.optionalTy payload)⟩ c)
          = SILType.getPrimitiveType ⟨internPtr payload⟩
              (SILType.getPrimitiveType ⟨internPtr (CTy.optionalTy payload)⟩ c).getCategory := by
        unfold SILType.getOptionalObjectType
        rw [hast]
        simp [internedOracle, decodePtr_internPtr]
      rw [hopt]
      have htb : (SILType.getPrimitiveType ⟨internPtr payload⟩
          (SILType.getPrimitiveType ⟨internPtr (CTy.optionalTy payload)⟩ c).getCategory).toBool
          = true := by
        unfold SILType.toBool
        rw [show ∀ (g : SILType), g.getPointer = g.getASTType.ptr from fun _ => rfl, hast]
        have := internPtr_ne_zero payload
        simp [this]
      rw [htb]
      simp only [if_true]
      rw [hast]
      cases payload with
      | fnTy rep =>
          simp [internedOracle, decodePtr_internPtr]
      | optionalTy q => simp [internedOracle, decodePtr_internPtr]
      | other g => simp [internedOracle, decodePtr_internPtr]
  | other g =>
      have hopt : SILType.getOptionalObjectType internedOracle
          (SILType.getPrimitiveType ⟨internPtr (CTy.other g)⟩ c) = {} := by
        unfold SILType.getOptionalObjectType
        rw [hast]
        simp [internedOracle, decodePtr_internPtr]
      rw [hopt]
      simp only [SILType.toBool, SILType.getPointer]
      norm_num
      rw [hast]
      simp [internedOracle, decodePtr_internPtr]

/-- C7: `isLoadable(F)` is the literal negation of the member
`isAddressOnly(F)`, for every address-only oracle, function and handle. -/
theorem c7_isLoadable_is_not_isAddressOnly (ao : SILFunction → SILType → Bool)
    (F : SILFunction) (h : SILType) :
    SILType.isLoadable ao F h = !(SILType.isAddressOnlyFn ao F h) := rfl

/-- C8: take-semantics of the two single-shot slots: after
`takeDelayedDeclState()` the code-completion slot is empty so
`hasDelayedDecl()` is false; `takeParserPosition()` returns the stored
marked position and resets the slot to the default-constructed invalid
sentinel, so a second `takeParserPosition()` returns an invalid position. -/
theorem c8_take_semantics (s : PersistentParserState) :
    PersistentParserState.hasDelayedDecl
      (PersistentParserState.takeDelayedDeclState s).2 = false ∧
    (PersistentParserState.takeParserPosition s).1 = s.markedPos ∧
    (PersistentParserState.takeParserPosition s).2.markedPos
      = ({} : ParserPosition) ∧
    (PersistentParserState.takeParserPosition
      (PersistentParserState.takeParserPosition s).2).1.isValid = false :=
  ⟨rfl, rfl, rfl, rfl⟩

theorem PersistentParserState.takeParserPositionIter_inPoundLineEnvironment
    (n : Nat) (s : PersistentParserState) :
    (PersistentParserState.takeParserPositionIter n s).inPoundLineEnvironment
      = s.inPoundLineEnvironment := by
  induction n generalizing s with
  | zero => rfl
  | succ n ih => exact ih _

/-- C9: `markParserPosition(P, b)` overwrites both the marked position and
the `InPoundLineEnvironment` flag (last write wins), while
`takeParserPosition()` resets only the marked position and leaves every
other field of the state unchanged; hence after `markParserPosition(P,
true)` the flag stays true across any number of takes. -/
theorem c9_mark_overwrites_take_frames (s r : PersistentParserState)
    (p q : ParserPosition) (b b' : Bool) (n : Nat) :
    PersistentParserState.markParserPosition
        (PersistentParserState.markParserPosition s q b') p b
      = PersistentParserState.markParserPosition s p b ∧
    (PersistentParserState.markParserPosition s p b).markedPos = p ∧
    (PersistentParserState.markParserPosition s p b).inPoundLineEnvironment = b ∧
    (PersistentParserState.takeParserPosition r).2.inPoundLineEnvironment
      = r.inPoundLineEnvironment ∧
    (PersistentParserState.takeParserPosition r).2.performConditionEvaluation
      = r.performConditionEvaluation ∧
    (PersistentParserState.takeParserPosition r).2.scopeInfo = r.scopeInfo ∧
    (PersistentParserState.takeParserPosition r).2.delayedFunctionBodies
      = r.delayedFunctionBodies ∧
    (PersistentParserState.takeParserPosition r).2.codeCompletionDelayedDeclState
      = r.codeCompletionDelayedDeclState ∧
    (PersistentParserState.takeParserPosition r).2.delayedDeclLists
      = r.delayedDeclLists ∧
    (PersistentParserState.takeParserPosition r).2.topLevelCode = r.topLevelCode ∧
    (PersistentParserState.takeParserPositionIter n
        (PersistentParserState.markParserPosition s p true)).inPoundLineEnvironment
      = true := by
  refine ⟨rfl, rfl, rfl, rfl, rfl, rfl, rfl, rfl, rfl, rfl, ?_⟩
  rw [PersistentParserState.takeParserPositionIter_inPoundLineEnvironment]
  rfl

/-- C10: the static predicates `isFormallyReturnedIndirectly` and
`isFormallyPassedIndirectly` coincide: both are defined as the static
address-only query at `ResilienceExpansion::Minimal`. -/
theorem c10_returned_indirectly_eq_passed_indirectly
    (ao : CanType → TypeConverter → CanGenericSignature → ResilienceExpansion → Bool)
    (t : CanType) (tc : TypeConverter) (sig : CanGenericSignature) :
    SILType.isFormallyReturnedIndirectly ao t tc sig
      = SILType.isFormallyPassedIndirectly ao t tc sig ∧
    SILType.isFormallyReturnedIndirectly ao t tc sig = ao t tc sig .Minimal :=
  ⟨rfl, rfl⟩

end SwiftModel
